import Mathlib

/-!
Shallow embedding of the `TorNetworkClient` class (src/unnamed/part_000 of
the torollama repository) in Lean 4.

Modelling conventions:
* The mutable fields of the TypeScript class become a `ClientState` record;
  each method is a pure function from the old state (plus oracles for the
  effects of the outside world) to its result and the new state.
* Network effects are oracles: a `fetch` call is an element of
  `FetchOutcome` (the promise rejects, or resolves to a response with an
  `ok` flag and a body whose JSON parse either throws or yields the
  `\x7bIsTor, IP\x7d` record that the client reads); an HTTP request issued via
  `TorNetworkClient.request` consults a function
  `NetFn : String → RequestInitOpts → FetchOutcome`, so that the outcome can
  depend on the URL and on the options actually passed to `fetch`.
* A thrown exception / rejected promise is an `Except.error`; a TypeScript
  `try/catch` becomes a `match` on the `Except`.
* JavaScript `Partial` objects distinguish an absent key from a key that is
  present with value `undefined`; an input field is therefore
  `Option (Option α)` (outer layer: key present?, inner layer: value or
  `undefined`), while a resolved field that can still legally hold
  `undefined` at run time is `Option α`.
* `Date` values are modelled as natural-number timestamps.
-/

/-- Resolved configuration (`TorConfig` interface).  Because the constructor
ends with a `...config` object spread, a key that the caller passed with the
value `undefined` survives resolution, so every field is an `Option`. -/
structure TorConfig where
  socksPort : Option Nat
  controlPort : Option Nat
  torrcPath : Option String
  dataDirectory : Option String
  circuitBuildTimeout : Option Nat
  newCircuitPeriod : Option Nat
deriving DecidableEq, Repr

/-- Constructor argument `Partial TorConfig`: each key may be absent
(`none`), present with `undefined` (`some none`), or present with a value
(`some (some v)`). -/
structure TorConfigInput where
  socksPort : Option (Option Nat)
  controlPort : Option (Option Nat)
  torrcPath : Option (Option String)
  dataDirectory : Option (Option String)
  circuitBuildTimeout : Option (Option Nat)
  newCircuitPeriod : Option (Option Nat)
deriving DecidableEq, Repr

/-- Effect of the trailing `...config` object spread on one field: a key
present in `config` (even with value `undefined`) overwrites the value
computed before it in the object literal; an absent key leaves it. -/
def spreadField (base : Option α) (inp : Option (Option α)) : Option α :=
  match inp with
  | none => base
  | some v => v

/-- The constructor body: each field is first given a `?? default` value and
the whole caller object is then spread on top (`\x7b socksPort: ..., ...,
...config \x7d`).  `tmpDir` stands for `tmpdir()`; `join` is modelled as
path concatenation with `/`. -/
def resolveConfig (tmpDir : String) (c : TorConfigInput) : TorConfig :=
  let base : TorConfig :=
    { socksPort := some ((Option.join c.socksPort).getD 9050)
      controlPort := some ((Option.join c.controlPort).getD 9051)
      circuitBuildTimeout := some ((Option.join c.circuitBuildTimeout).getD 60)
      newCircuitPeriod := some ((Option.join c.newCircuitPeriod).getD 30)
      torrcPath := Option.join c.torrcPath
      dataDirectory :=
        some ((Option.join c.dataDirectory).getD (tmpDir ++ "/torollama-tor")) }
  { socksPort := spreadField base.socksPort c.socksPort
    controlPort := spreadField base.controlPort c.controlPort
    torrcPath := spreadField base.torrcPath c.torrcPath
    dataDirectory := spreadField base.dataDirectory c.dataDirectory
    circuitBuildTimeout := spreadField base.circuitBuildTimeout c.circuitBuildTimeout
    newCircuitPeriod := spreadField base.newCircuitPeriod c.newCircuitPeriod }

/-- The `TorConnectionStatus` interface.  `lastCircuitTime` is a timestamp. -/
structure TorConnectionStatus where
  isConnected : Bool
  circuitEstablished : Bool
  currentIP : Option String
  torVersion : Option String
  circuitCount : Option Nat
  lastCircuitTime : Option Nat
deriving DecidableEq, Repr

/-- Field initializer of `connectionStatus` in the class declaration. -/
def initialStatus : TorConnectionStatus :=
  { isConnected := false
    circuitEstablished := false
    currentIP := none
    torVersion := none
    circuitCount := none
    lastCircuitTime := none }

/-- The mutable instance fields of `TorNetworkClient`.  `agent` holds the
SOCKS URL the `SocksProxyAgent` was built from (`none` = the field is
`null`); `torProcess` records whether a child-process handle is held. -/
structure ClientState where
  config : TorConfig
  agent : Option String
  torProcess : Bool
  isInitialized : Bool
  connectionStatus : TorConnectionStatus
deriving DecidableEq, Repr

/-- Constructor call `new TorNetworkClient(config)`. -/
def mkTorNetworkClient (tmpDir : String) (c : TorConfigInput) : ClientState :=
  { config := resolveConfig tmpDir c
    agent := none
    torProcess := false
    isInitialized := false
    connectionStatus := initialStatus }

/-- Result of `response.json()` as far as the client inspects it: the parse
throws (`malformed`), or yields an object whose `IsTor` and `IP` fields the
client reads. -/
inductive JsonBody where
  | malformed
  | ipInfo (isTor : Bool) (ip : String)
deriving DecidableEq, Repr

/-- A resolved `fetch` response: its `ok` flag and its body. -/
structure HttpResponse where
  ok : Bool
  body : JsonBody
deriving DecidableEq, Repr

/-- Outcome of one `fetch` call: the promise rejects with a message, or
resolves to a response. -/
inductive FetchOutcome where
  | fail (msg : String)
  | success (r : HttpResponse)
deriving DecidableEq, Repr

/-- The options record `TorRequestOptions` (extends `RequestInit`). -/
structure TorRequestOptions where
  timeout : Option Nat
  followRedirects : Option Bool
  maxRedirects : Option Nat
  method : Option String
  headers : List (String × String)
  body : Option String
deriving DecidableEq, Repr

/-- Value of `TorRequestOptions` denoting a bare `\x7b\x7d` literal. -/
def emptyOptions : TorRequestOptions :=
  { timeout := none, followRedirects := none, maxRedirects := none
    method := none, headers := [], body := none }

/-- The `requestOptions` record actually handed to `fetch` by `request`. -/
structure RequestInitOpts where
  method : Option String
  headers : List (String × String)
  body : Option String
  agent : Option String
  redirect : String
  timeout : Nat
deriving DecidableEq, Repr

/-- Construction of `requestOptions` inside `request`: destructure
`timeout`/`followRedirects`/`maxRedirects` with defaults, spread the rest,
and add `agent`, `redirect` and `timeout`. -/
def buildRequestOptions (agent : Option String) (opts : TorRequestOptions) :
    RequestInitOpts :=
  { method := opts.method
    headers := opts.headers
    body := opts.body
    agent := agent
    redirect := if opts.followRedirects.getD true then "follow" else "manual"
    timeout := opts.timeout.getD 30000 }

/-- The network as seen through `fetch`: the outcome may depend on the URL
and on the options passed. -/
def NetFn : Type := String → RequestInitOpts → FetchOutcome

/-- Errors thrown by the client. -/
inductive TorError where
  | notInitialized
  | requestFailed (msg : String)
  | initFailed (msg : String)
deriving DecidableEq, Repr

/-- Method `TorNetworkClient.request`: guard
`if (!this.isInitialized || !this.agent) throw`, then `fetch` with the built
options; the `catch` block rethrows, so failures propagate.  The second
component records whether `fetch` was actually invoked.  `request` does not
write any instance field, so no state is returned. -/
def request (st : ClientState) (url : String) (opts : TorRequestOptions)
    (net : NetFn) : Except TorError HttpResponse × Bool :=
  if !st.isInitialized || st.agent.isNone then
    (.error .notInitialized, false)
  else
    match net url (buildRequestOptions st.agent opts) with
    | .fail m => (.error (.requestFailed m), true)
    | .success r => (.ok r, true)

/-- URL of the connectivity check used by `checkConnection`. -/
def checkUrl : String := "https://check.torproject.org/api/ip"

/-- Options literal `\x7b timeout: 10000 \x7d` passed by `checkConnection`. -/
def checkOpts : TorRequestOptions := { emptyOptions with timeout := some 10000 }

/-- Effect of the `catch` block of `checkConnection`:
`this.connectionStatus.isConnected = false`. -/
def connNotConnected (st : ClientState) : ClientState :=
  { st with connectionStatus := { st.connectionStatus with isConnected := false } }

/-- Method `TorNetworkClient.checkConnection`.  The whole body is wrapped in
`try/catch`, so the method never throws and always yields a `Bool` together
with the new state.  Inside the `try`, `this.request` is called (whose
not-initialized guard can itself throw into the `catch`); if the response is
`ok`, the body is parsed and `currentIP` / `isConnected` are written; a
response that is not `ok` falls through to `return false` without touching
the status. -/
def checkConnection (st : ClientState) (net : NetFn) : Bool × ClientState :=
  match (request st checkUrl checkOpts net).1 with
  | .error _ => (false, connNotConnected st)
  | .ok r =>
    if r.ok then
      match r.body with
      | .malformed => (false, connNotConnected st)
      | .ipInfo isTor ip =>
        (isTor,
         { st with connectionStatus :=
            { st.connectionStatus with currentIP := some ip, isConnected := isTor } })
    else
      (false, st)

/-- Method `TorNetworkClient.checkExistingTorConnection`: a raw `fetch` through a
locally constructed agent; returns `data.IsTor` when the response is `ok`
and parses, `false` on a non-`ok` response, and `false` from the `catch`
otherwise.  No instance field is touched. -/
def checkExistingTorConnection (o : FetchOutcome) : Bool :=
  match o with
  | .fail _ => false
  | .success r =>
    if r.ok then
      match r.body with
      | .malformed => false
      | .ipInfo isTor _ => isTor
    else
      false

/-- Parsing of the `GETINFO version` reply:
`versionInfo.split(Char)[1]?.trim() ?? undefined`. -/
def parseVersionPart (s : String) : Option String :=
  match (s.splitOn "=")[1]? with
  | some t => some t.trim
  | none => none

/-- Body of the `try` block of `updateConnectionStatus`: call
`checkConnection` (which never throws), replace `connectionStatus` with a
copy carrying the fresh `isConnected`/`circuitEstablished`, and, when
connected, best-effort fetch the daemon version (its own failure is caught
by the inner `catch`).  Every branch resolves, hence every branch is `.ok`:
the enclosing `catch` of `updateConnectionStatus` is dead code. -/
def updateConnectionStatusTry (st : ClientState) (net : NetFn)
    (vo : Except String String) : Except String ClientState :=
  let res := checkConnection st net
  let isConn := res.1
  let st2 :=
    { res.2 with connectionStatus :=
      { res.2.connectionStatus with
          isConnected := isConn, circuitEstablished := isConn } }
  if isConn then
    match vo with
    | .ok info =>
      .ok { st2 with connectionStatus :=
        { st2.connectionStatus with torVersion := parseVersionPart info } }
    | .error _ => .ok st2
  else
    .ok st2

/-- Method `TorNetworkClient.updateConnectionStatus` with its outer `catch`, which
would set `isConnected`/`circuitEstablished` to false had anything thrown. -/
def updateConnectionStatus (st : ClientState) (net : NetFn)
    (vo : Except String String) : ClientState :=
  match updateConnectionStatusTry st net vo with
  | .ok s => s
  | .error _ =>
    { st with connectionStatus :=
      { st.connectionStatus with isConnected := false, circuitEstablished := false } }

/-- Method `TorNetworkClient.getStatus`: refresh, then return `\x7b ...this.connectionStatus \x7d`. -/
def getStatus (st : ClientState) (net : NetFn) (vo : Except String String) :
    TorConnectionStatus × ClientState :=
  let st1 := updateConnectionStatus st net vo
  (st1.connectionStatus, st1)

/-- Assignment `this.connectionStatus.lastCircuitTime = new Date()`. -/
def stampCircuit (st : ClientState) (now : Nat) : ClientState :=
  { st with connectionStatus :=
    { st.connectionStatus with lastCircuitTime := some now } }

/-- Body of the `try` block of `newCircuit`: send `SIGNAL NEWNYM` (outcome
`sig`; a rejection propagates to the catch), wait 2 s, refresh the status
(a rejection would propagate likewise), stamp `lastCircuitTime`, return
true. -/
def newCircuitTry (st : ClientState) (sig : Except String String) (net : NetFn)
    (vo : Except String String) (now : Nat) : Except String (Bool × ClientState) :=
  match sig with
  | .error e => .error e
  | .ok _ =>
    match updateConnectionStatusTry st net vo with
    | .error e => .error e
    | .ok st1 => .ok (true, stampCircuit st1 now)

/-- Method `TorNetworkClient.newCircuit`: the `try` body above under a catch-all
that returns false, so the method never throws. -/
def newCircuit (st : ClientState) (sig : Except String String) (net : NetFn)
    (vo : Except String String) (now : Nat) : Bool × ClientState :=
  match newCircuitTry st sig net vo now with
  | .ok r => r
  | .error _ => (false, st)

/-- Method `TorNetworkClient.cleanup`: kill the spawned daemon if any, drop the
agent, reset the initialized flag. -/
def cleanup (st : ClientState) : ClientState :=
  { st with torProcess := false, agent := none, isInitialized := false }

/-- Decimal rendering of a template-literal interpolation of a value that
may be `undefined` at run time. -/
def optNumStr : Option Nat → String
  | some n => toString n
  | none => "undefined"

/-- Template-literal interpolation of an optional string. -/
def optStr : Option String → String
  | some s => s
  | none => "undefined"

/-- The fixed line embedded in every generated torrc. -/
def hashedControlPasswordLine : String :=
  "HashedControlPassword 16:872860B76453A77D60CA2BB8C1A7042072093276A3D701AD684053EC4C"

/-- Content of the torrc file written by `startTorDaemon` (after `.trim()`),
line for line. -/
def torrcContent (cfg : TorConfig) : String :=
  ("SocksPort " ++ optNumStr cfg.socksPort ++ "\n" ++
   "ControlPort " ++ optNumStr cfg.controlPort ++ "\n" ++
   "DataDirectory " ++ optStr cfg.dataDirectory ++ "\n" ++
   "CircuitBuildTimeout " ++ optNumStr cfg.circuitBuildTimeout ++ "\n" ++
   "NewCircuitPeriod " ++ optNumStr cfg.newCircuitPeriod ++ "\n" ++
   "ExitNodes \x7bus\x7d,\x7bca\x7d,\x7bgb\x7d,\x7bde\x7d,\x7bfr\x7d,\x7bnl\x7d,\x7bse\x7d,\x7bno\x7d,\x7bdk\x7d\n" ++
   "StrictNodes 0\n" ++
   "# Enable control port authentication\n") ++
  (hashedControlPasswordLine ++ "\n" ++
   "CookieAuthentication 1")

/-- SOCKS URL the agent is built from. -/
def socksUrl (cfg : TorConfig) : String :=
  "socks5h://127.0.0.1:" ++ optNumStr cfg.socksPort

/-- Oracles consumed by one run of `initTor`: the initial probe for an
existing daemon, the resolution of `startTorDaemon`, the probe outcomes of
the `waitForTorConnection` attempts, and the network/control oracles used by
the final status refresh. -/
structure InitOracle where
  probe : FetchOutcome
  spawnOk : Except String Unit
  waitProbes : List FetchOutcome
  statusNet : NetFn
  versionCmd : Except String String

/-- Tail of `initialize` once a daemon is (believed) available: build the
agent, refresh the status, succeed only if the refreshed status is
connected, and only then set `isInitialized`. -/
def initFinish (st : ClientState) (o : InitOracle) :
    Except TorError Unit × ClientState :=
  let st1 := { st with agent := some (socksUrl st.config) }
  let st2 := updateConnectionStatus st1 o.statusNet o.versionCmd
  if st2.connectionStatus.isConnected then
    (.ok (), { st2 with isInitialized := true })
  else
    (.error (.initFailed "Failed to establish TOR connection"), st2)

/-- Method `TorNetworkClient.initialize` (named `initTor` here): return at once if
already initialized; otherwise probe for an existing daemon, else spawn one
(`torProcess` is set as soon as `spawn` is issued) and wait for up to 30
SOCKS probes; then finish via `initFinish`.  All failures surface as a
wrapped initialization error. -/
def initTor (st : ClientState) (o : InitOracle) :
    Except TorError Unit × ClientState :=
  if st.isInitialized then
    (.ok (), st)
  else if checkExistingTorConnection o.probe then
    initFinish st o
  else
    let st1 := { st with torProcess := true }
    match o.spawnOk with
    | .error e => (.error (.initFailed ("Failed to start TOR: " ++ e)), st1)
    | .ok _ =>
      if (o.waitProbes.take 30).any checkExistingTorConnection then
        initFinish st1 o
      else
        (.error (.initFailed "TOR connection timeout"), st1)

/-- One public operation on the client, bundled with its oracles. -/
inductive TorOp where
  | opInit (o : InitOracle)
  | opRequest (url : String) (opts : TorRequestOptions) (net : NetFn)
  | opGetStatus (net : NetFn) (vo : Except String String)
  | opCheckConnection (net : NetFn)
  | opNewCircuit (sig : Except String String) (net : NetFn)
      (vo : Except String String) (now : Nat)
  | opCleanup

/-- State transition of one operation (its result is discarded;
`request` never writes instance fields). -/
def stepOp (st : ClientState) : TorOp → ClientState
  | .opInit o => (initTor st o).2
  | .opRequest _ _ _ => st
  | .opGetStatus net vo => (getStatus st net vo).2
  | .opCheckConnection net => (checkConnection st net).2
  | .opNewCircuit sig net vo now => (newCircuit st sig net vo now).2
  | .opCleanup => cleanup st

/-- Run a sequence of operations. -/
def runOps (st : ClientState) (ops : List TorOp) : ClientState :=
  ops.foldl stepOp st

/-- Tiny heap of JavaScript objects holding `TorConnectionStatus` records;
addresses are indices.  Used to give the object-copy semantics of
`getStatus` actual content: distinct addresses are distinct objects. -/
structure JsHeap where
  cells : List TorConnectionStatus
deriving DecidableEq, Repr

/-- Allocate a fresh object. -/
def JsHeap.alloc (h : JsHeap) (v : TorConnectionStatus) : JsHeap × Nat :=
  ({ cells := h.cells ++ [v] }, h.cells.length)

/-- Overwrite the object at an address (mutation through a reference). -/
def JsHeap.write (h : JsHeap) (r : Nat) (v : TorConnectionStatus) : JsHeap :=
  { cells := h.cells.set r v }

/-- Dereference. -/
def JsHeap.read (h : JsHeap) (r : Nat) : Option TorConnectionStatus :=
  h.cells[r]?

/-- Heap-level `getStatus`: `r` is the heap cell backing
`this.connectionStatus`.  The refresh writes the manager's cell; the
`return \x7b ...this.connectionStatus \x7d` allocates a fresh object holding a copy
and hands its address to the caller. -/
def getStatusHeap (st : ClientState) (net : NetFn) (vo : Except String String)
    (h : JsHeap) (r : Nat) : ClientState × JsHeap × Nat :=
  let st1 := updateConnectionStatus st net vo
  let h1 := h.write r st1.connectionStatus
  let ar := h1.alloc st1.connectionStatus
  (st1, ar.1, ar.2)

/-- The not-initialized guard of `request` fires whenever the flag is down,
before any `fetch` is issued. -/
theorem request_not_initialized (st : ClientState) (url : String)
    (opts : TorRequestOptions) (net : NetFn) (h : st.isInitialized = false) :
    request st url opts net = (.error .notInitialized, false) := by
  simp [request, h]

/-- Lemma: `checkConnection` never writes `isInitialized`. -/
theorem checkConnection_isInitialized (st : ClientState) (net : NetFn) :
    (checkConnection st net).2.isInitialized = st.isInitialized := by
  unfold checkConnection
  split
  · rfl
  · split
    · split <;> rfl
    · rfl

/-- Every branch of the `try` body of `updateConnectionStatus` resolves. -/
theorem updateConnectionStatusTry_isOk (st : ClientState) (net : NetFn)
    (vo : Except String String) :
    ∃ s, updateConnectionStatusTry st net vo = .ok s := by
  unfold updateConnectionStatusTry
  cases hc : (checkConnection st net).1 <;> cases vo <;> simp [hc]

/-- Because the `try` body never throws, `updateConnectionStatus` is exactly
its `try` body. -/
theorem updateConnectionStatusTry_eq (st : ClientState) (net : NetFn)
    (vo : Except String String) :
    updateConnectionStatusTry st net vo = .ok (updateConnectionStatus st net vo) := by
  obtain ⟨s, hs⟩ := updateConnectionStatusTry_isOk st net vo
  have h2 : updateConnectionStatus st net vo = s := by
    unfold updateConnectionStatus
    rw [hs]
  rw [hs, h2]

/-- Lemma: `updateConnectionStatus` never writes `isInitialized`. -/
theorem updateConnectionStatus_isInitialized (st : ClientState) (net : NetFn)
    (vo : Except String String) :
    (updateConnectionStatus st net vo).isInitialized = st.isInitialized := by
  unfold updateConnectionStatus updateConnectionStatusTry
  cases hc : (checkConnection st net).1 <;> cases vo <;>
    simp [hc, checkConnection_isInitialized]

/-- While the flag is down, the inner `request` of `checkConnection`
throws, so the probe reports false and the catch clears the flag. -/
theorem checkConnection_not_init (st : ClientState) (net : NetFn)
    (h : st.isInitialized = false) :
    checkConnection st net = (false, connNotConnected st) := by
  unfold checkConnection
  rw [request_not_initialized st checkUrl checkOpts net h]

/-- While the flag is down, a status refresh always ends not-connected,
because the probe it runs goes through the guarded `request`. -/
theorem updateConnectionStatus_not_init (st : ClientState) (net : NetFn)
    (vo : Except String String) (h : st.isInitialized = false) :
    (updateConnectionStatus st net vo).connectionStatus.isConnected = false := by
  unfold updateConnectionStatus updateConnectionStatusTry
  rw [checkConnection_not_init st net h]
  simp

/-- Lemma: `initFinish` cannot raise the flag when it starts with the flag down:
its status verification runs before `isInitialized` is assigned, and the
probe inside it is rejected by the guard of `request`. -/
theorem initFinish_not_init (st : ClientState) (o : InitOracle)
    (h : st.isInitialized = false) :
    (initFinish st o).2.isInitialized = false := by
  unfold initFinish
  have hagent : ({ st with agent := some (socksUrl st.config) } : ClientState).isInitialized = false := h
  simp only [updateConnectionStatus_not_init _ o.statusNet o.versionCmd hagent,
    Bool.false_eq_true, if_false]
  rw [updateConnectionStatus_isInitialized]
  exact hagent

/-- Lemma: `initTor` leaves `isInitialized` exactly as it found it: when already
up it returns at once, and when down every path fails before the
assignment `this.isInitialized = true`. -/
theorem initTor_isInitialized (st : ClientState) (o : InitOracle) :
    (initTor st o).2.isInitialized = st.isInitialized := by
  cases h : st.isInitialized with
  | true => simp [initTor, h]
  | false =>
    unfold initTor
    rw [h]
    simp only [Bool.false_eq_true, if_false]
    split
    · exact initFinish_not_init st o h
    · split
      · rfl
      · split
        · exact initFinish_not_init _ o rfl
        · rfl

/-- Lemma: `newCircuit` never writes `isInitialized`. -/
theorem newCircuit_isInitialized (st : ClientState) (sig : Except String String)
    (net : NetFn) (vo : Except String String) (now : Nat) :
    (newCircuit st sig net vo now).2.isInitialized = st.isInitialized := by
  cases sig with
  | error e => rfl
  | ok v =>
    unfold newCircuit newCircuitTry
    rw [updateConnectionStatusTry_eq]
    simp [stampCircuit, updateConnectionStatus_isInitialized]

/-- One step never raises a fallen flag. -/
theorem stepOp_not_init (st : ClientState) (op : TorOp)
    (h : st.isInitialized = false) : (stepOp st op).isInitialized = false := by
  cases op with
  | opInit o => rw [stepOp, initTor_isInitialized]; exact h
  | opRequest url opts net => exact h
  | opGetStatus net vo =>
    show (getStatus st net vo).2.isInitialized = false
    rw [getStatus, updateConnectionStatus_isInitialized]
    exact h
  | opCheckConnection net =>
    show (checkConnection st net).2.isInitialized = false
    rw [checkConnection_isInitialized]
    exact h
  | opNewCircuit sig net vo now =>
    show (newCircuit st sig net vo now).2.isInitialized = false
    rw [newCircuit_isInitialized]
    exact h
  | opCleanup => rfl

/-- No sequence of operations can raise a fallen flag. -/
theorem runOps_not_init (st : ClientState) (ops : List TorOp)
    (h : st.isInitialized = false) : (runOps st ops).isInitialized = false := by
  induction ops generalizing st with
  | nil => exact h
  | cons op rest ih =>
    show (runOps (stepOp st op) rest).isInitialized = false
    exact ih _ (stepOp_not_init st op h)

/-- Config input with every key absent (`new TorNetworkClient()`). -/
def emptyInput : TorConfigInput :=
  { socksPort := none, controlPort := none, torrcPath := none,
    dataDirectory := none, circuitBuildTimeout := none, newCircuitPeriod := none }

/-- A state shaped like the postcondition of a successful initialization:
flag up, agent built from the configured SOCKS port, status connected. -/
def stReady : ClientState :=
  { config := resolveConfig "/tmp" emptyInput
    agent := some (socksUrl (resolveConfig "/tmp" emptyInput))
    torProcess := false
    isInitialized := true
    connectionStatus :=
      { initialStatus with isConnected := true, circuitEstablished := true } }

/-- Oracle describing a world where nothing is reachable. -/
def oracleQuiet : InitOracle :=
  { probe := .fail "ECONNREFUSED"
    spawnOk := .ok ()
    waitProbes := []
    statusNet := fun _ _ => .fail "ECONNREFUSED"
    versionCmd := .error "ECONNREFUSED" }

/-- C2: for every target URL and every request-options value, `request` on a
manager that has not completed a successful `initialize()` fails with the
not-initialized error and performs no network call.  The theorem quantifies
over every manager reachable from the constructor by any operation sequence:
the flag `isInitialized` starts false and no reachable path raises it before
a successful initialization completes (indeed the final
status verification runs its probe through the guarded `request`, so every
path of `runOps` keeps the flag down), hence the guard rejects the call with
`fetch` never invoked (second component `false`). -/
theorem request_before_initialization (tmpDir : String) (c : TorConfigInput)
    (ops : List TorOp) (url : String) (opts : TorRequestOptions) (net : NetFn) :
    request (runOps (mkTorNetworkClient tmpDir c) ops) url opts net =
      (.error .notInitialized, false) :=
  request_not_initialized _ _ _ _ (runOps_not_init _ _ rfl)

/-- C10: after `cleanup()` on any manager, every subsequent `request` — for
every target, options and intervening operation sequence (including further
`initialize()` attempts, none of which can complete successfully before the
request) — fails with the not-initialized error, because `cleanup()` resets
`isInitialized` and releases the agent, and no later step raises the flag
again. -/
theorem request_after_cleanup (st : ClientState) (ops : List TorOp)
    (url : String) (opts : TorRequestOptions) (net : NetFn) :
    request (runOps (cleanup st) ops) url opts net =
      (.error .notInitialized, false) :=
  request_not_initialized _ _ _ _ (runOps_not_init _ _ rfl)

/-- C4: `initialize()` is idempotent — on a manager whose flag is already
up, it returns immediately with `.ok`, leaves the state untouched, and the
result does not depend on the oracle (no discovery probe, no spawn, no file,
no status refresh is consulted). -/
theorem initTor_idempotent (st : ClientState) (o : InitOracle)
    (h : st.isInitialized = true) : initTor st o = (.ok (), st) := by
  simp [initTor, h]

/-- Witness for C4 at a concrete initialized manager and concrete oracle. -/
theorem initTor_idempotent_witness :
    stReady.isInitialized = true ∧ initTor stReady oracleQuiet = (.ok (), stReady) :=
  ⟨rfl, initTor_idempotent stReady oracleQuiet rfl⟩

/-- C3: the torrc synthesized by `startTorDaemon` embeds the fixed,
hard-coded `HashedControlPassword` line for every configuration — the same
static hashed secret in every deployment, alongside `CookieAuthentication 1`.
This contradicts the claim (and the repository's own SECURITY.md/Dockerfile
reference configurations, which use cookie authentication only), so the
claim is recorded as a code bug; this theorem evaluates the code's torrc
generation. -/
theorem torrc_embeds_fixed_password (cfg : TorConfig) :
    ∃ a b, torrcContent cfg = a ++ hashedControlPasswordLine ++ b := by
  refine ⟨"SocksPort " ++ optNumStr cfg.socksPort ++ "\n" ++
    "ControlPort " ++ optNumStr cfg.controlPort ++ "\n" ++
    "DataDirectory " ++ optStr cfg.dataDirectory ++ "\n" ++
    "CircuitBuildTimeout " ++ optNumStr cfg.circuitBuildTimeout ++ "\n" ++
    "NewCircuitPeriod " ++ optNumStr cfg.newCircuitPeriod ++ "\n" ++
    "ExitNodes \x7bus\x7d,\x7bca\x7d,\x7bgb\x7d,\x7bde\x7d,\x7bfr\x7d,\x7bnl\x7d,\x7bse\x7d,\x7bno\x7d,\x7bdk\x7d\n" ++
    "StrictNodes 0\n" ++
    "# Enable control port authentication\n",
    "\n" ++ "CookieAuthentication 1", ?_⟩
  simp [torrcContent, String.append_assoc]

/-- Network oracle answering every fetch with a non-success response whose
body nevertheless parses and carries `IsTor: true`. -/
def netNonOkTor : NetFn :=
  fun _ _ => .success { ok := false, body := .ipInfo true "203.0.113.7" }

/-- Counterexample to C1 as stated: on an initialized, currently connected
manager, a connectivity check that gets a non-success HTTP status from the
endpoint returns false but leaves the connected flag at true — the
`isConnected = false` write happens only in the `ok`-response branch and in
the catch, not on the `!response.ok` path. -/
theorem checkConnection_nonOk_keeps_connected :
    (checkConnection stReady netNonOkTor).1 = false ∧
    (checkConnection stReady netNonOkTor).2.connectionStatus.isConnected = true := by
  constructor <;> rfl

/-- C1 (amended): `checkConnection()` never throws (it totalizes every
failure into a boolean) and returns false on every failure; on a rejected
fetch it also sets the connected flag to false, as it does when its inner
`request` throws (e.g. the manager is not initialized) and when the response
body is malformed; but on a response with a non-success HTTP status it
returns false leaving the connection status — including the connected flag —
unchanged. -/
theorem checkConnection_failure_behavior (st : ClientState) (net : NetFn) :
    (∀ m, net checkUrl (buildRequestOptions st.agent checkOpts) = .fail m →
      checkConnection st net = (false, connNotConnected st)) ∧
    (st.isInitialized = false ∨ st.agent = none →
      checkConnection st net = (false, connNotConnected st)) ∧
    (∀ r, net checkUrl (buildRequestOptions st.agent checkOpts) = .success r →
      r.ok = true → r.body = .malformed →
      checkConnection st net = (false, connNotConnected st)) ∧
    (∀ r, st.isInitialized = true → st.agent.isSome = true →
      net checkUrl (buildRequestOptions st.agent checkOpts) = .success r →
      r.ok = false →
      checkConnection st net = (false, st)) := by
  by_cases hg : !st.isInitialized || st.agent.isNone
  · have hreq : (request st checkUrl checkOpts net).1 = .error .notInitialized := by
      simp [request, hg]
    have hcc : checkConnection st net = (false, connNotConnected st) := by
      unfold checkConnection
      rw [hreq]
    refine ⟨fun _ _ => hcc, fun _ => hcc, fun _ _ _ _ => hcc, fun r hi ha _ _ => ?_⟩
    simp only [Bool.or_eq_true, Bool.not_eq_eq_eq_not, Bool.not_true,
      Option.isNone_iff_eq_none] at hg
    rcases hg with hg | hg
    · rw [hi] at hg; cases hg
    · rw [hg] at ha; cases ha
  · have hreq : (request st checkUrl checkOpts net).1 =
        match net checkUrl (buildRequestOptions st.agent checkOpts) with
        | .fail m => .error (.requestFailed m)
        | .success r => .ok r := by
      unfold request
      rw [if_neg (by simpa using hg)]
      split <;> rfl
    refine ⟨?_, ?_, ?_, ?_⟩
    · intro m hm
      unfold checkConnection
      rw [hreq, hm]
    · intro hor
      exfalso
      rcases hor with h1 | h1 <;> simp [h1] at hg
    · intro r hr hok hbody
      unfold checkConnection
      rw [hreq, hr]
      simp [hok, hbody]
    · intro r _ _ hr hok
      unfold checkConnection
      rw [hreq, hr]
      simp [hok]

/-- Witness for the amended C1 at concrete inputs: a rejected fetch on the
ready manager reports false and clears the connected flag. -/
theorem checkConnection_failure_behavior_witness :
    checkConnection stReady (fun _ _ => .fail "socket hang up") =
      (false, connNotConnected stReady) :=
  (checkConnection_failure_behavior stReady _).1 "socket hang up" rfl

/-- Reading of the `IsTor` field of a probe response, for stating the claims
about `checkConnection` (a body that does not parse carries no such field). -/
def respIsTorField (r : HttpResponse) : Bool :=
  match r.body with
  | .ipInfo t _ => t
  | .malformed => false

/-- Counterexample to C6 as stated: on an initialized manager, a probe
response whose body carries `IsTor: true` but whose HTTP status is not a
success makes `checkConnection()` return false — the body is never parsed
on the `!response.ok` path — so the biconditional between the returned
boolean and the `IsTor` field fails at this response. -/
theorem checkConnection_isTor_mismatch :
    (checkConnection stReady
      (fun _ _ => .success { ok := false, body := .ipInfo true "198.51.100.9" })).1
        = false ∧
    respIsTorField { ok := false, body := .ipInfo true "198.51.100.9" } = true := by
  constructor <;> rfl

/-- C6 (amended): after a successful initialization (flag up, agent
present), `checkConnection()` returns true iff the probe resolves to a
response with a success status whose body parses and has `IsTor` true;
responses with a non-success status report false regardless of their body. -/
theorem checkConnection_true_iff_isTor (st : ClientState) (net : NetFn)
    (hi : st.isInitialized = true) (ha : st.agent.isSome = true) :
    ((checkConnection st net).1 = true ↔
      ∃ ip, net checkUrl (buildRequestOptions st.agent checkOpts) =
        .success { ok := true, body := .ipInfo true ip }) := by
  obtain ⟨a, hag⟩ := Option.isSome_iff_exists.mp ha
  have hreq : (request st checkUrl checkOpts net).1 =
      match net checkUrl (buildRequestOptions st.agent checkOpts) with
      | .fail m => .error (.requestFailed m)
      | .success r => .ok r := by
    unfold request
    rw [if_neg (by simp [hi, hag])]
    split <;> rfl
  unfold checkConnection
  rw [hreq]
  cases hnet : net checkUrl (buildRequestOptions st.agent checkOpts) with
  | fail m => simp
  | success r =>
    obtain ⟨ok, body⟩ := r
    cases ok with
    | false => simp
    | true =>
      cases body with
      | malformed => simp
      | ipInfo t ip =>
        cases t <;> simp

/-- Witness for the amended C6: a success response with `IsTor: true` makes
the check report true on the ready manager. -/
theorem checkConnection_true_iff_isTor_witness :
    (checkConnection stReady
      (fun _ _ => .success { ok := true, body := .ipInfo true "185.220.101.1" })).1
        = true :=
  (checkConnection_true_iff_isTor stReady _ rfl rfl).mpr ⟨"185.220.101.1", rfl⟩

/-- C5: `newCircuit()` totalizes every failure into a boolean (its whole
body sits under a catch-all, so it never throws) and returns true exactly
when the `SIGNAL NEWNYM` control command succeeds and the subsequent status
refresh resolves — and the refresh always resolves, because every failure
inside `updateConnectionStatus` is swallowed by its own handlers (its probe
runs through the never-throwing `checkConnection`, and the version query has
an inner catch); in particular a rejected control command (control port
unreachable, signal refused) yields false with the state untouched. -/
theorem newCircuit_true_iff (st : ClientState) (sig : Except String String)
    (net : NetFn) (vo : Except String String) (now : Nat) :
    (((newCircuit st sig net vo now).1 = true ↔
      (∃ v, sig = .ok v) ∧ ∃ s, updateConnectionStatusTry st net vo = .ok s) ∧
     ∀ e, sig = .error e → newCircuit st sig net vo now = (false, st)) := by
  constructor
  · cases sig with
    | error e => simp [newCircuit, newCircuitTry]
    | ok v =>
      unfold newCircuit newCircuitTry
      rw [updateConnectionStatusTry_eq]
      simp [updateConnectionStatusTry_eq]
  · intro e he
    subst he
    rfl

/-- Witness for C5: a concrete unreachable control port makes `newCircuit`
report false without disturbing the ready manager. -/
theorem newCircuit_true_iff_witness :
    newCircuit stReady (.error "connect ECONNREFUSED 127.0.0.1:9051")
      (fun _ _ => .fail "unreachable") (.error "unreachable") 1700000000
      = (false, stReady) :=
  (newCircuit_true_iff stReady _ _ _ _).2 _ rfl

/-- C7: `getStatus()` hands back a freshly allocated copy of the status
object, not the internal reference: the returned address differs from the
manager's cell, and overwriting the returned object with an arbitrary value
leaves the manager's cell holding exactly the refreshed internal status. -/
theorem getStatus_copy_independent (st : ClientState) (net : NetFn)
    (vo : Except String String) (h : JsHeap) (r : Nat) (v : TorConnectionStatus)
    (hr : r < h.cells.length) :
    (getStatusHeap st net vo h r).2.2 ≠ r ∧
    ((getStatusHeap st net vo h r).2.1.write (getStatusHeap st net vo h r).2.2 v).read r
      = some (getStatusHeap st net vo h r).1.connectionStatus := by
  unfold getStatusHeap JsHeap.alloc JsHeap.write JsHeap.read
  dsimp only
  constructor
  · rw [List.length_set]
    exact (Nat.ne_of_lt hr).symm
  · rw [List.getElem?_set_ne (by rw [List.length_set]; exact (Nat.ne_of_lt hr).symm)]
    rw [List.getElem?_append_left (by rw [List.length_set]; exact hr)]
    rw [List.getElem?_set_eq_of_lt _ hr]

/-- Witness for C7 on a one-cell heap: after the caller clobbers the copy,
the manager's cell still holds the refreshed status. -/
theorem getStatus_copy_independent_witness :
    (getStatusHeap stReady (fun _ _ => .fail "down") (.error "down")
        { cells := [initialStatus] } 0).2.2 ≠ 0 ∧
    ((getStatusHeap stReady (fun _ _ => .fail "down") (.error "down")
        { cells := [initialStatus] } 0).2.1.write
      (getStatusHeap stReady (fun _ _ => .fail "down") (.error "down")
        { cells := [initialStatus] } 0).2.2
      { initialStatus with circuitCount := some 99 }).read 0
      = some (getStatusHeap stReady (fun _ _ => .fail "down") (.error "down")
        { cells := [initialStatus] } 0).1.connectionStatus :=
  getStatus_copy_independent stReady _ _ _ 0 _ (by decide)

/-- C8: every field the caller omits takes its documented default — SOCKS
port 9050, control port 9051, and likewise the remaining constructor
defaults — while every field the caller supplies is kept exactly as
supplied (including a key explicitly set to `undefined`, which the trailing
`...config` spread preserves). -/
theorem resolveConfig_defaults (tmpDir : String) (c : TorConfigInput) :
    (c.socksPort = none → (resolveConfig tmpDir c).socksPort = some 9050) ∧
    (c.controlPort = none → (resolveConfig tmpDir c).controlPort = some 9051) ∧
    (c.circuitBuildTimeout = none →
      (resolveConfig tmpDir c).circuitBuildTimeout = some 60) ∧
    (c.newCircuitPeriod = none →
      (resolveConfig tmpDir c).newCircuitPeriod = some 30) ∧
    (c.torrcPath = none → (resolveConfig tmpDir c).torrcPath = none) ∧
    (c.dataDirectory = none →
      (resolveConfig tmpDir c).dataDirectory = some (tmpDir ++ "/torollama-tor")) ∧
    (∀ v, c.socksPort = some v → (resolveConfig tmpDir c).socksPort = v) ∧
    (∀ v, c.controlPort = some v → (resolveConfig tmpDir c).controlPort = v) ∧
    (∀ v, c.circuitBuildTimeout = some v →
      (resolveConfig tmpDir c).circuitBuildTimeout = v) ∧
    (∀ v, c.newCircuitPeriod = some v →
      (resolveConfig tmpDir c).newCircuitPeriod = v) ∧
    (∀ v, c.torrcPath = some v → (resolveConfig tmpDir c).torrcPath = v) ∧
    (∀ v, c.dataDirectory = some v → (resolveConfig tmpDir c).dataDirectory = v) := by
  refine ⟨?_, ?_, ?_, ?_, ?_, ?_, ?_, ?_, ?_, ?_, ?_, ?_⟩ <;>
    first
      | (intro h; simp [resolveConfig, spreadField, h])
      | (intro v h; simp [resolveConfig, spreadField, h])

/-- A constructor argument supplying every key, `dataDirectory` explicitly
as `undefined`. -/
def inputSupplied : TorConfigInput :=
  { socksPort := some (some 9150), controlPort := some (some 9151),
    torrcPath := some (some "/etc/torrc"), dataDirectory := some none,
    circuitBuildTimeout := some (some 10), newCircuitPeriod := some (some 20) }

/-- Witness for C8: omitted ports default to 9050/9051; supplied values are
kept verbatim. -/
theorem resolveConfig_defaults_witness :
    (resolveConfig "/tmp" emptyInput).socksPort = some 9050 ∧
    (resolveConfig "/tmp" emptyInput).controlPort = some 9051 ∧
    (resolveConfig "/tmp" inputSupplied).socksPort = some 9150 ∧
    (resolveConfig "/tmp" inputSupplied).dataDirectory = none :=
  ⟨(resolveConfig_defaults "/tmp" emptyInput).1 rfl,
   (resolveConfig_defaults "/tmp" emptyInput).2.1 rfl,
   (resolveConfig_defaults "/tmp" inputSupplied).2.2.2.2.2.2.1 _ rfl,
   (resolveConfig_defaults "/tmp" inputSupplied).2.2.2.2.2.2.2.2.2.2.2 _ rfl⟩

/-- C9: `request` is independent of `maxRedirects`: for two options values
that differ only in that field, the options handed to `fetch` coincide (the
destructured `maxRedirects` is dropped and never used; only
`followRedirects` decides the `redirect` mode) and the call's result is
identical for every network behavior. -/
theorem request_independent_of_maxRedirects (st : ClientState) (url : String)
    (o1 o2 : TorRequestOptions) (net : NetFn)
    (h : o2 = { o1 with maxRedirects := o2.maxRedirects }) :
    buildRequestOptions st.agent o1 = buildRequestOptions st.agent o2 ∧
    request st url o1 net = request st url o2 net := by
  obtain ⟨t1, f1, m1, me1, hd1, b1⟩ := o1
  obtain ⟨t2, f2, m2, me2, hd2, b2⟩ := o2
  simp only [TorRequestOptions.mk.injEq] at h
  obtain ⟨ht, hf, -, hme, hhd, hb⟩ := h
  subst ht
  subst hf
  subst hme
  subst hhd
  subst hb
  exact ⟨rfl, rfl⟩

/-- Witness for C9: redirect limits 1 and 50 produce the same call. -/
theorem request_independent_of_maxRedirects_witness :
    request stReady "http://directory.example.onion/"
      { emptyOptions with maxRedirects := some 1 } (fun _ _ => .fail "down") =
    request stReady "http://directory.example.onion/"
      { emptyOptions with maxRedirects := some 50 } (fun _ _ => .fail "down") :=
  (request_independent_of_maxRedirects stReady "http://directory.example.onion/"
    { emptyOptions with maxRedirects := some 1 }
    { emptyOptions with maxRedirects := some 50 } (fun _ _ => .fail "down") rfl).2
